import Mathlib

/-!
Verification of the medical note template system
(src/medical_note_template.py).

The Python module stores note fields in a dict mapping field names to
values that are either strings or lists of strings (or None), validates
required fields by truthiness, and renders three note variants
(consult, handoff, operative) to plain text by fixed-order string
concatenation.

Shallow embedding conventions:
* A Python value stored in the field dict is modelled by the inductive
  type Value (a string, a list of strings, or None).
* The field dict is modelled as an association list with Python dict
  update semantics (overwrite in place, append new keys at the end).
* datetime.now() is modelled by an explicit parameter: a Nat tick for
  the timestamp bookkeeping of the mutating operations, and a String
  (the strftime rendering) for the renderers.
* Python truthiness of a stored value is the function Value.truthy.
-/

set_option maxRecDepth 100000

/-- A value stored in the field dict: Python str, list of str, or None. -/
inductive Value where
  | vStr (s : String)
  | vList (l : List String)
  | vNone
deriving DecidableEq, Repr

/-- Python truthiness of a stored value: empty string, empty list and
None are falsy, everything else is truthy. -/
def Value.truthy : Value → Bool
  | .vStr s => !s.isEmpty
  | .vList l => !l.isEmpty
  | .vNone => false

/-- Python isinstance of list for a stored value. -/
def Value.isList : Value → Bool
  | .vList _ => true
  | _ => false

/-- The list payload of a stored value (only used under isList). -/
def Value.asList : Value → List String
  | .vList l => l
  | _ => []

/-- The single-quote character, written by code point to keep the
source free of quote literals. -/
def sqChar : String := String.mk [Char.ofNat 39]

/-- Python str() of a stored value as interpolated into an f-string:
a string is itself, a list prints as its Python repr, None prints as
the word None. -/
def Value.pyStr : Value → String
  | .vStr s => s
  | .vList l => "[" ++ String.intercalate ", " (l.map (fun s => sqChar ++ s ++ sqChar)) ++ "]"
  | .vNone => "None"

/-- The template state: the field dict plus the two timestamps kept by
MedicalNoteTemplate (created_date, last_modified), with time as Nat. -/
structure MedicalNoteTemplate where
  fields : List (String × Value)
  created_date : Nat
  last_modified : Nat
deriving DecidableEq, Repr

/-- Python dict assignment d[name] = v: overwrite the binding in place
when the key is present, append it at the end otherwise. -/
def dictSet (l : List (String × Value)) (name : String) (v : Value) :
    List (String × Value) :=
  if l.any (fun p => p.1 == name) then
    l.map (fun p => if p.1 == name then (name, v) else p)
  else
    l ++ [(name, v)]

/-- A fresh template as built by the Python constructor: empty dict,
both timestamps set to the construction instant. -/
def MedicalNoteTemplate.new (now : Nat) : MedicalNoteTemplate :=
  { fields := [], created_date := now, last_modified := now }

/-- set_field: upsert one field and refresh last_modified. -/
def set_field (t : MedicalNoteTemplate) (field_name : String) (v : Value)
    (now : Nat) : MedicalNoteTemplate :=
  { t with fields := dictSet t.fields field_name v, last_modified := now }

/-- get_field: dict.get with a default, returned only when the key is
absent. -/
def get_field (t : MedicalNoteTemplate) (field_name : String)
    (default : Value) : Value :=
  match t.fields.lookup field_name with
  | some v => v
  | none => default

/-- set_multiple_fields: dict.update with the given bindings, one
last_modified refresh. -/
def set_multiple_fields (t : MedicalNoteTemplate)
    (field_dict : List (String × Value)) (now : Nat) : MedicalNoteTemplate :=
  { t with
    fields := field_dict.foldl (fun fs p => dictSet fs p.1 p.2) t.fields,
    last_modified := now }

/-- clear: reset the field dict to empty and refresh last_modified. -/
def clear (t : MedicalNoteTemplate) (now : Nat) : MedicalNoteTemplate :=
  { t with fields := [], last_modified := now }

/-- The three concrete template variants. -/
inductive TemplateType where
  | consult
  | handoff
  | operative
deriving DecidableEq, Repr

/-- get_required_fields of each variant, in declaration order. -/
def get_required_fields : TemplateType → List String
  | .consult =>
    ["patient_name", "patient_mrn", "date_of_consult", "consulting_service",
     "reason_for_consult", "history_of_present_illness", "assessment",
     "recommendations"]
  | .handoff =>
    ["patient_name", "patient_mrn", "patient_location", "primary_diagnosis",
     "active_issues"]
  | .operative =>
    ["patient_name", "patient_mrn", "date_of_surgery",
     "preoperative_diagnosis", "postoperative_diagnosis",
     "procedure_performed", "surgeon", "anesthesia_type",
     "operative_findings", "description_of_procedure",
     "estimated_blood_loss", "specimens", "complications", "disposition"]

/-- validate: walk the required fields in declaration order, collecting
those absent from the dict or bound to a falsy value; return whether
the collection is empty together with the collection. -/
def validate (tt : TemplateType) (t : MedicalNoteTemplate) :
    Bool × List String :=
  let missing_fields := (get_required_fields tt).foldl
    (fun acc field =>
      match t.fields.lookup field with
      | some v => if v.truthy then acc else acc ++ [field]
      | none => acc ++ [field]) []
  (missing_fields.length == 0, missing_fields)

/-- The class name of each variant, as exported by export_to_dict. -/
def templateClassName : TemplateType → String
  | .consult => "ConsultNoteTemplate"
  | .handoff => "EpicHandoffTemplate"
  | .operative => "OperativeReportTemplate"

/-- The snapshot produced by export_to_dict. -/
structure ExportedNote where
  template_type : String
  created_date : Nat
  last_modified : Nat
  fields : List (String × Value)
deriving DecidableEq, Repr

/-- export_to_dict: a snapshot of the class name, both timestamps and a
copy of the field dict. -/
def export_to_dict (tt : TemplateType) (t : MedicalNoteTemplate) :
    ExportedNote :=
  { template_type := templateClassName tt,
    created_date := t.created_date,
    last_modified := t.last_modified,
    fields := t.fields }

/-- An 80-character rule line of the given character. -/
def rule80 (c : Char) : String := String.mk (List.replicate 80 c)

/-- Indentation string of the helper formatters (always 0 spaces at
every call site in the module). -/
def indentStr (indent : Nat) : String := String.mk (List.replicate indent ' ')

/-- The helper method that formats a titled scalar section: empty
output when the content is falsy, otherwise title line, content line
and a blank line. -/
def formatSection (title : String) (content : Value) (indent : Nat) : String :=
  if content.truthy then
    indentStr indent ++ title ++ ":\n" ++ indentStr indent ++ content.pyStr ++ "\n\n"
  else ""

/-- The helper method that formats a titled bulleted-list section:
empty output for an empty list, otherwise title line, one dash-item
line per element, and a blank line. -/
def formatListSection (title : String) (items : List String) (indent : Nat) :
    String :=
  if items.isEmpty then ""
  else
    indentStr indent ++ title ++ ":\n"
      ++ String.intercalate "\n" (items.map (fun item => indentStr indent ++ "- " ++ item))
      ++ "\n\n"

/-- A header line for a required field: label, colon, the stored value
with a bracketed placeholder default used when the key is absent. -/
def provLine (t : MedicalNoteTemplate) (field label : String) : String :=
  label ++ ": " ++ (get_field t field (Value.vStr "[NOT PROVIDED]")).pyStr ++ "\n"

/-- A header line for an optional field: emitted only when the stored
value is truthy. -/
def optLine (t : MedicalNoteTemplate) (field label : String) : String :=
  if (get_field t field Value.vNone).truthy then
    label ++ ": " ++ (get_field t field Value.vNone).pyStr ++ "\n"
  else ""

/-- An optional scalar section: formatted only when the stored value is
truthy. -/
def optSection (t : MedicalNoteTemplate) (field title : String) : String :=
  if (get_field t field Value.vNone).truthy then
    formatSection title (get_field t field Value.vNone) 0
  else ""

/-- A required scalar section: formatted with the bracketed placeholder
default used when the key is absent. -/
def reqSection (t : MedicalNoteTemplate) (field title : String) : String :=
  formatSection title (get_field t field (Value.vStr "[NOT PROVIDED]")) 0

/-- An optional dual-representation section: list values render as a
bulleted list, anything else as a scalar section; emitted only when
the stored value is truthy. -/
def optDualSection (t : MedicalNoteTemplate) (field title : String) : String :=
  if (get_field t field Value.vNone).truthy then
    if (get_field t field Value.vNone).isList then
      formatListSection title (get_field t field Value.vNone).asList 0
    else
      formatSection title (get_field t field Value.vNone) 0
  else ""

/-- A required dual-representation section: a stored list renders as a
bulleted list, otherwise a scalar section with the bracketed
placeholder default used when the key is absent. -/
def reqDualSection (t : MedicalNoteTemplate) (field title : String) : String :=
  if (get_field t field Value.vNone).isList then
    formatListSection title (get_field t field (Value.vList ["[NOT PROVIDED]"])).asList 0
  else
    formatSection title (get_field t field (Value.vStr "[NOT PROVIDED]")) 0

/-- format_note of ConsultNoteTemplate: banner header, patient block,
sections in source order, then a dashed signature block ending with the
current-time Date line (datetime.now passed in as now). -/
def ConsultNoteTemplate.format_note (t : MedicalNoteTemplate) (now : String) :
    String :=
  rule80 '=' ++ "\n" ++ "CONSULTATION NOTE\n" ++ rule80 '=' ++ "\n\n"
  ++ "PATIENT INFORMATION:\n"
  ++ provLine t "patient_name" "Name"
  ++ provLine t "patient_mrn" "MRN"
  ++ optLine t "patient_dob" "DOB"
  ++ optLine t "age" "Age"
  ++ optLine t "sex" "Sex"
  ++ provLine t "date_of_consult" "Date of Consult"
  ++ provLine t "consulting_service" "Consulting Service"
  ++ optLine t "referring_provider" "Referring Provider"
  ++ "\n"
  ++ reqSection t "reason_for_consult" "REASON FOR CONSULT"
  ++ reqSection t "history_of_present_illness" "HISTORY OF PRESENT ILLNESS"
  ++ optSection t "past_medical_history" "PAST MEDICAL HISTORY"
  ++ optSection t "past_surgical_history" "PAST SURGICAL HISTORY"
  ++ optDualSection t "medications" "MEDICATIONS"
  ++ optSection t "allergies" "ALLERGIES"
  ++ optSection t "social_history" "SOCIAL HISTORY"
  ++ optSection t "family_history" "FAMILY HISTORY"
  ++ optSection t "review_of_systems" "REVIEW OF SYSTEMS"
  ++ optSection t "physical_exam" "PHYSICAL EXAMINATION"
  ++ optSection t "labs" "LABORATORY DATA"
  ++ optSection t "imaging" "IMAGING"
  ++ optSection t "other_studies" "OTHER STUDIES"
  ++ reqSection t "assessment" "ASSESSMENT"
  ++ optDualSection t "differential_diagnosis" "DIFFERENTIAL DIAGNOSIS"
  ++ reqDualSection t "recommendations" "RECOMMENDATIONS"
  ++ optDualSection t "plan" "PLAN"
  ++ optSection t "follow_up" "FOLLOW-UP"
  ++ "\n" ++ rule80 '-' ++ "\n"
  ++ optLine t "consulting_physician" "Consulting Physician"
  ++ optLine t "attending_physician" "Attending Physician"
  ++ "Date: " ++ now ++ "\n"

/-- format_note of EpicHandoffTemplate: banner header, patient block
with the current-time Handoff Date/Time line, sections in source order,
and a closing banner of equal signs with no signature block. -/
def EpicHandoffTemplate.format_note (t : MedicalNoteTemplate) (now : String) :
    String :=
  rule80 '=' ++ "\n" ++ "HANDOFF NOTE\n" ++ rule80 '=' ++ "\n\n"
  ++ provLine t "patient_name" "Patient"
  ++ provLine t "patient_mrn" "MRN"
  ++ provLine t "patient_location" "Location"
  ++ optLine t "age" "Age"
  ++ optLine t "sex" "Sex"
  ++ optLine t "admission_date" "Admission Date"
  ++ optLine t "hospital_day" "Hospital Day"
  ++ optLine t "code_status" "Code Status"
  ++ "Handoff Date/Time: " ++ now ++ "\n"
  ++ optLine t "handoff_from" "From"
  ++ optLine t "handoff_to" "To"
  ++ "\n"
  ++ reqSection t "primary_diagnosis" "PRIMARY DIAGNOSIS"
  ++ optSection t "brief_history" "BRIEF HISTORY"
  ++ optSection t "past_medical_history" "PAST MEDICAL HISTORY"
  ++ optSection t "allergies" "ALLERGIES"
  ++ reqDualSection t "active_issues" "ACTIVE ISSUES"
  ++ optSection t "vital_signs" "VITAL SIGNS"
  ++ optSection t "key_labs" "KEY LABS"
  ++ optSection t "key_imaging" "KEY IMAGING"
  ++ optDualSection t "current_medications" "CURRENT MEDICATIONS"
  ++ optSection t "iv_fluids" "IV FLUIDS"
  ++ optSection t "diet" "DIET"
  ++ optSection t "activity" "ACTIVITY"
  ++ optDualSection t "lines_tubes_drains" "LINES/TUBES/DRAINS"
  ++ optDualSection t "pending_studies" "PENDING STUDIES"
  ++ optDualSection t "pending_consults" "PENDING CONSULTS"
  ++ optDualSection t "to_do_list" "TO-DO LIST"
  ++ optDualSection t "if_then_scenarios" "IF-THEN SCENARIOS"
  ++ optSection t "anticipated_discharge_date" "ANTICIPATED DISCHARGE DATE"
  ++ optSection t "discharge_planning" "DISCHARGE PLANNING"
  ++ optSection t "family_communication" "FAMILY COMMUNICATION"
  ++ rule80 '=' ++ "\n"

/-- format_note of OperativeReportTemplate: banner header, patient and
surgical-team blocks, sections in source order, then a dashed signature
block ending with the current-time Date line. -/
def OperativeReportTemplate.format_note (t : MedicalNoteTemplate)
    (now : String) : String :=
  rule80 '=' ++ "\n" ++ "OPERATIVE REPORT\n" ++ rule80 '=' ++ "\n\n"
  ++ "PATIENT INFORMATION:\n"
  ++ provLine t "patient_name" "Name"
  ++ provLine t "patient_mrn" "MRN"
  ++ optLine t "patient_dob" "DOB"
  ++ optLine t "age" "Age"
  ++ optLine t "sex" "Sex"
  ++ provLine t "date_of_surgery" "Date of Surgery"
  ++ optLine t "start_time" "Start Time"
  ++ optLine t "end_time" "End Time"
  ++ optLine t "total_time" "Total Time"
  ++ "\n"
  ++ "SURGICAL TEAM:\n"
  ++ provLine t "surgeon" "Surgeon"
  ++ optLine t "assistant_surgeon" "Assistant Surgeon"
  ++ optLine t "attending_surgeon" "Attending Surgeon"
  ++ optLine t "anesthesiologist" "Anesthesiologist"
  ++ provLine t "anesthesia_type" "Anesthesia Type"
  ++ optLine t "nurses" "Nursing Staff"
  ++ "\n"
  ++ reqSection t "preoperative_diagnosis" "PREOPERATIVE DIAGNOSIS"
  ++ reqSection t "postoperative_diagnosis" "POSTOPERATIVE DIAGNOSIS"
  ++ reqDualSection t "procedure_performed" "PROCEDURE(S) PERFORMED"
  ++ optSection t "indication" "INDICATION"
  ++ reqSection t "operative_findings" "OPERATIVE FINDINGS"
  ++ reqSection t "description_of_procedure" "DESCRIPTION OF PROCEDURE"
  ++ "INTRAOPERATIVE DETAILS:\n"
  ++ provLine t "estimated_blood_loss" "Estimated Blood Loss"
  ++ optLine t "ivf_given" "IV Fluids Given"
  ++ optLine t "urine_output" "Urine Output"
  ++ "\n"
  ++ reqSection t "specimens" "SPECIMENS"
  ++ optSection t "pathology" "PATHOLOGY"
  ++ optSection t "drains" "DRAINS"
  ++ optSection t "implants" "IMPLANTS"
  ++ optSection t "counts_correct" "COUNTS"
  ++ reqSection t "complications" "COMPLICATIONS"
  ++ reqSection t "disposition" "DISPOSITION"
  ++ optSection t "condition" "CONDITION"
  ++ optSection t "follow_up_plan" "FOLLOW-UP PLAN"
  ++ "\n" ++ rule80 '-' ++ "\n"
  ++ provLine t "surgeon" "Surgeon"
  ++ optLine t "attending_surgeon" "Attending"
  ++ "Date: " ++ now ++ "\n"

/-- format_note dispatched on the variant. -/
def format_note (tt : TemplateType) (t : MedicalNoteTemplate) (now : String) :
    String :=
  match tt with
  | .consult => ConsultNoteTemplate.format_note t now
  | .handoff => EpicHandoffTemplate.format_note t now
  | .operative => OperativeReportTemplate.format_note t now

/-- Python str.lower modelled character-wise: every character mapped
to its lowercase form. -/
def pyLower (s : String) : String := String.mk (s.data.map Char.toLower)

/-- create_template: lowercase the requested name, look it up in the
table of the three variants, fail with the descriptive message listing
the valid types otherwise. -/
def create_template (template_type : String) : Except String TemplateType :=
  let lowered := pyLower template_type
  if lowered == "consult" then Except.ok TemplateType.consult
  else if lowered == "handoff" then Except.ok TemplateType.handoff
  else if lowered == "operative" then Except.ok TemplateType.operative
  else Except.error ("Unknown template type: " ++ lowered
    ++ ". Valid types are: consult, handoff, operative")

/-- The predicate under which validate reports a required field:
absent from the dict, or bound to a falsy value. -/
def fieldMissing (t : MedicalNoteTemplate) (field : String) : Bool :=
  match t.fields.lookup field with
  | some v => !v.truthy
  | none => true

/-- Missing-field list as the spec words it: the required field names
that are absent or falsy, in declaration order. -/
def specMissing (tt : TemplateType) (t : MedicalNoteTemplate) : List String :=
  (get_required_fields tt).filter (fieldMissing t)

theorem validate_foldl_eq_filter (t : MedicalNoteTemplate)
    (l acc : List String) :
    l.foldl (fun acc field =>
      match t.fields.lookup field with
      | some v => if v.truthy then acc else acc ++ [field]
      | none => acc ++ [field]) acc
      = acc ++ l.filter (fieldMissing t) := by
  induction l generalizing acc with
  | nil => simp
  | cons hd tl ih =>
    cases h : t.fields.lookup hd with
    | none =>
      simp [h, ih, List.filter_cons, fieldMissing]
    | some v =>
      cases hv : v.truthy with
      | true => simp [h, hv, ih, List.filter_cons, fieldMissing]
      | false => simp [h, hv, ih, List.filter_cons, fieldMissing]

/-- C1: validate returns a pair whose second component is exactly the
required fields that are absent or falsy, in declaration order, and
whose first component is true exactly when that list is empty. -/
theorem validate_spec (tt : TemplateType) (t : MedicalNoteTemplate) :
    (validate tt t).2 = specMissing tt t
      ∧ ((validate tt t).1 = true ↔ (validate tt t).2 = []) := by
  have h := validate_foldl_eq_filter t (get_required_fields tt) []
  constructor
  · simp only [validate, h, List.nil_append, specMissing]
  · simp only [validate, h, List.nil_append, beq_iff_eq,
      List.length_eq_zero]

/-- C4: a Handoff template with only patient_name set to Jane Smith
fails validation with exactly the other four required fields missing,
in declaration order. -/
theorem validate_handoff_jane_smith :
    validate TemplateType.handoff
      (set_field (MedicalNoteTemplate.new 0) "patient_name"
        (Value.vStr "Jane Smith") 1)
      = (false, ["patient_mrn", "patient_location", "primary_diagnosis",
                 "active_issues"]) := by
  decide

theorem lookup_map_overwrite (l : List (String × Value)) (name : String)
    (v : Value) (h : l.any (fun p => p.1 == name) = true) :
    (l.map (fun p => if p.1 == name then (name, v) else p)).lookup name
      = some v := by
  induction l with
  | nil => simp at h
  | cons hd tl ih =>
    obtain ⟨k, w⟩ := hd
    by_cases hk : k = name
    · subst hk
      simp [List.lookup_cons]
    · have h' : tl.any (fun p => p.1 == name) = true := by
        simpa [hk] using h
      have hne : ¬(name = k) := fun e => hk e.symm
      rw [List.map_cons, if_neg (by simp [hk]), List.lookup_cons,
        beq_false_of_ne hne]
      exact ih h'

theorem lookup_append_new (l : List (String × Value)) (name : String)
    (v : Value) (h : l.any (fun p => p.1 == name) = false) :
    (l ++ [(name, v)]).lookup name = some v := by
  induction l with
  | nil => simp [List.lookup_cons]
  | cons hd tl ih =>
    obtain ⟨k, w⟩ := hd
    have hk : ¬(k = name) := by
      intro he
      simp [he] at h
    have h' : tl.any (fun p => p.1 == name) = false := by
      simpa [hk] using h
    have hne : ¬(name = k) := fun e => hk e.symm
    rw [List.cons_append, List.lookup_cons, beq_false_of_ne hne]
    exact ih h'

theorem lookup_dictSet (l : List (String × Value)) (name : String)
    (v : Value) : (dictSet l name v).lookup name = some v := by
  unfold dictSet
  cases h : l.any (fun p => p.1 == name) with
  | true =>
    rw [if_pos rfl]
    exact lookup_map_overwrite l name v h
  | false =>
    rw [if_neg (by simp)]
    exact lookup_append_new l name v h

/-- C7: setting a field and immediately reading it back returns exactly
the stored value, whatever default the read supplies. -/
theorem set_get_roundtrip (t : MedicalNoteTemplate) (name : String)
    (v : Value) (now : Nat) (d : Value) :
    get_field (set_field t name v now) name d = v := by
  simp [get_field, set_field, lookup_dictSet]

/-- C9: get_field falls back to its default exactly when the key is
absent from the dict; a present binding is returned as stored even
when its value is falsy. -/
theorem get_field_default_only_when_absent (t : MedicalNoteTemplate)
    (name : String) (d : Value) :
    (t.fields.lookup name = none → get_field t name d = d)
      ∧ (∀ v, t.fields.lookup name = some v → get_field t name d = v) := by
  constructor
  · intro h
    simp [get_field, h]
  · intro v h
    simp [get_field, h]

theorem get_field_default_only_when_absent_witness :
    get_field
      { fields := [("allergies", Value.vStr "")], created_date := 0,
        last_modified := 0 } "allergies" (Value.vStr "fallback")
      = Value.vStr ""
    ∧ get_field
      { fields := [("allergies", Value.vStr "")], created_date := 0,
        last_modified := 0 } "labs" (Value.vStr "fallback")
      = Value.vStr "fallback" :=
  ⟨(get_field_default_only_when_absent _ "allergies" _).2 (Value.vStr "")
      (by decide),
   (get_field_default_only_when_absent _ "labs" _).1 (by decide)⟩

/-- C10: set_field, set_multiple_fields and clear preserve created_date
and stamp last_modified with the current instant; export_to_dict is a
pure snapshot reporting both timestamps and the field dict unchanged.
The read-only operations (get_field, validate, export_to_dict,
format_note) are pure functions of the state and return no new state. -/
theorem timestamps_frame (t : MedicalNoteTemplate) (name : String)
    (v : Value) (kvs : List (String × Value)) (now : Nat)
    (tt : TemplateType) :
    (set_field t name v now).created_date = t.created_date
    ∧ (set_field t name v now).last_modified = now
    ∧ (set_multiple_fields t kvs now).created_date = t.created_date
    ∧ (set_multiple_fields t kvs now).last_modified = now
    ∧ (clear t now).created_date = t.created_date
    ∧ (clear t now).last_modified = now
    ∧ (export_to_dict tt t).created_date = t.created_date
    ∧ (export_to_dict tt t).last_modified = t.last_modified
    ∧ (export_to_dict tt t).fields = t.fields :=
  ⟨rfl, rfl, rfl, rfl, rfl, rfl, rfl, rfl, rfl⟩

/-- C8: with the current time fixed as an explicit parameter, rendering
depends only on the field state: two templates with identical field
dicts render identically for every variant, whatever their timestamps. -/
theorem format_note_deterministic (tt : TemplateType)
    (t1 t2 : MedicalNoteTemplate) (now : String)
    (h : t1.fields = t2.fields) :
    format_note tt t1 now = format_note tt t2 now := by
  have hg : ∀ f d, get_field t1 f d = get_field t2 f d := by
    intro f d
    simp [get_field, h]
  cases tt <;>
    simp only [format_note, ConsultNoteTemplate.format_note,
      EpicHandoffTemplate.format_note, OperativeReportTemplate.format_note,
      provLine, optLine, optSection, reqSection, optDualSection,
      reqDualSection, hg]

theorem format_note_deterministic_witness :
    format_note TemplateType.handoff
      { fields := [("patient_name", Value.vStr "Jane Smith")],
        created_date := 0, last_modified := 0 } "2024-06-01 10:00"
      = format_note TemplateType.handoff
      { fields := [("patient_name", Value.vStr "Jane Smith")],
        created_date := 3, last_modified := 7 } "2024-06-01 10:00" :=
  format_note_deterministic TemplateType.handoff _ _ "2024-06-01 10:00" rfl

/-- C6: the factory succeeds exactly on names whose lowercasing is one
of consult, handoff, operative, and fails on anything else with the
message naming the valid options; every other modelled operation is a
total function and cannot fail. -/
theorem create_template_spec :
    (∀ s, (create_template s).isOk = true
        ↔ pyLower s ∈ ["consult", "handoff", "operative"])
    ∧ create_template "foo" = Except.error
        "Unknown template type: foo. Valid types are: consult, handoff, operative" := by
  constructor
  · intro s
    by_cases h1 : pyLower s = "consult"
    · simp [create_template, h1, Except.isOk, Except.toBool]
    · by_cases h2 : pyLower s = "handoff"
      · simp [create_template, h1, h2, Except.isOk, Except.toBool]
      · by_cases h3 : pyLower s = "operative"
        · simp [create_template, h1, h2, h3, Except.isOk, Except.toBool]
        · simp [create_template, h1, h2, h3, Except.isOk, Except.toBool]
  · rfl

theorem create_template_spec_witness :
    (create_template "HANDOFF").isOk = true :=
  (create_template_spec.1 "HANDOFF").mpr (by decide)

/-- Whether the first character list is a leading segment of the
second. -/
def charsStartWith : List Char → List Char → Bool
  | [], _ => true
  | _ :: _, [] => false
  | a :: as, b :: bs => a == b && charsStartWith as bs

/-- Whether the first character list occurs contiguously inside the
second. -/
def charsContain (needle : List Char) : List Char → Bool
  | [] => needle.isEmpty
  | c :: cs => charsStartWith needle (c :: cs) || charsContain needle cs

/-- Substring occurrence on strings, by character list. -/
def strContains (hay needle : String) : Bool :=
  charsContain needle.data hay.data

/-- Suffix test on strings, by reversed character list. -/
def strEndsWith (hay tail : String) : Bool :=
  charsStartWith tail.data.reverse hay.data.reverse

/-- A consult template whose required fields are all populated, with a
two-item recommendations list. -/
def fullConsult : MedicalNoteTemplate :=
  set_multiple_fields (MedicalNoteTemplate.new 0)
    [("patient_name", Value.vStr "Jane Smith"),
     ("patient_mrn", Value.vStr "123456"),
     ("date_of_consult", Value.vStr "2024-01-01"),
     ("consulting_service", Value.vStr "Cardiology"),
     ("reason_for_consult", Value.vStr "Chest pain"),
     ("history_of_present_illness", Value.vStr "Two days of chest pain."),
     ("assessment", Value.vStr "Stable angina."),
     ("recommendations", Value.vList ["A", "B"])] 1

/-- C5: a truthy plain string renders as a single titled text block, a
nonempty list renders as the title followed by one dash-prefixed line
per item, and the fully populated consult note contains the
RECOMMENDATIONS section with exactly the two item lines. -/
theorem list_vs_scalar_rendering (title s : String) (items : List String) :
    (s ≠ "" → formatSection title (Value.vStr s) 0
        = title ++ ":\n" ++ s ++ "\n\n")
    ∧ (items ≠ [] → formatListSection title items 0
        = title ++ ":\n"
          ++ String.intercalate "\n" (items.map (fun item => "- " ++ item))
          ++ "\n\n")
    ∧ strContains
        (ConsultNoteTemplate.format_note fullConsult "2024-01-01 00:00")
        "RECOMMENDATIONS:\n- A\n- B\n\n" = true := by
  have hind : indentStr 0 = "" := rfl
  refine ⟨?_, ?_, ?_⟩
  · intro hs
    have hse : s.isEmpty = false := by
      cases h : s.isEmpty with
      | false => rfl
      | true => exact absurd ((String.isEmpty_iff s).mp h) hs
    have ht : (Value.vStr s).truthy = true := by
      simp [Value.truthy, hse]
    simp [formatSection, ht, Value.pyStr, hind, String.append_empty]
  · intro hi
    have hne : items.isEmpty = false := by
      simp [List.isEmpty_iff, hi]
    simp [formatListSection, hne, hind, String.append_empty]
  · decide

theorem list_vs_scalar_rendering_witness :
    formatSection "ASSESSMENT" (Value.vStr "Stable angina.") 0
      = "ASSESSMENT" ++ ":\n" ++ "Stable angina." ++ "\n\n"
    ∧ formatListSection "RECOMMENDATIONS" ["A", "B"] 0
      = "RECOMMENDATIONS" ++ ":\n"
        ++ String.intercalate "\n" (["A", "B"].map (fun item => "- " ++ item))
        ++ "\n\n" :=
  ⟨(list_vs_scalar_rendering "ASSESSMENT" "Stable angina." []).1 (by decide),
   (list_vs_scalar_rendering "RECOMMENDATIONS" "" ["A", "B"]).2.1 (by decide)⟩

/-- A consult template holding only patient_name bound to the empty
string. -/
def emptyNameConsult : MedicalNoteTemplate :=
  set_field (MedicalNoteTemplate.new 0) "patient_name" (Value.vStr "") 1

/-- C2 counterexample: with patient_name present but bound to the empty
string, the rendered consult note does not carry the placeholder on the
Name line; the line is rendered with an empty value instead. -/
theorem required_empty_no_placeholder :
    strContains
      (ConsultNoteTemplate.format_note emptyNameConsult "2024-01-01 00:00")
      "Name: [NOT PROVIDED]" = false
    ∧ strContains
      (ConsultNoteTemplate.format_note emptyNameConsult "2024-01-01 00:00")
      "Name: \n" = true := by
  decide

/-- C2 amended: a required field renders the bracketed placeholder
exactly when its key is absent from the dict; a key present with an
empty-string value renders an empty header line, and an empty-valued
required section is omitted entirely. -/
theorem required_placeholder_on_absent (t : MedicalNoteTemplate)
    (f label title : String) :
    (t.fields.lookup f = none →
        provLine t f label = label ++ ": " ++ "[NOT PROVIDED]" ++ "\n"
        ∧ reqSection t f title = title ++ ":\n" ++ "[NOT PROVIDED]" ++ "\n\n")
    ∧ (t.fields.lookup f = some (Value.vStr "") →
        provLine t f label = label ++ ": " ++ "\n"
        ∧ reqSection t f title = "") := by
  have hind : indentStr 0 = "" := rfl
  have hnp : ("[NOT PROVIDED]" : String).isEmpty = false := by decide
  have hem : ("" : String).isEmpty = true := by decide
  constructor
  · intro h
    constructor
    · simp [provLine, get_field, h, Value.pyStr]
    · simp [reqSection, formatSection, get_field, h, Value.pyStr,
        Value.truthy, hind, hnp, String.append_empty]
  · intro h
    constructor
    · simp [provLine, get_field, h, Value.pyStr, String.append_empty]
    · simp [reqSection, formatSection, get_field, h, Value.truthy, hem]

theorem required_placeholder_on_absent_witness :
    (provLine emptyNameConsult "patient_mrn" "MRN"
        = "MRN" ++ ": " ++ "[NOT PROVIDED]" ++ "\n"
      ∧ reqSection emptyNameConsult "patient_mrn" "MRN SECTION"
        = "MRN SECTION" ++ ":\n" ++ "[NOT PROVIDED]" ++ "\n\n")
    ∧ (provLine emptyNameConsult "patient_name" "Name" = "Name" ++ ": " ++ "\n"
      ∧ reqSection emptyNameConsult "patient_name" "NAME SECTION" = "") :=
  ⟨(required_placeholder_on_absent emptyNameConsult "patient_mrn" "MRN"
      "MRN SECTION").1 (by decide),
   (required_placeholder_on_absent emptyNameConsult "patient_name" "Name"
      "NAME SECTION").2 (by decide)⟩

/-- C3 counterexample: the handoff note with an empty field store ends
with a bare banner of equal signs, and no current-time Date line
appears anywhere in it; its only current-time line is the header
Handoff Date/Time line. -/
theorem handoff_footer_no_signature :
    strContains
      (EpicHandoffTemplate.format_note (MedicalNoteTemplate.new 0)
        "2024-06-01 10:00")
      "Date: 2024-06-01 10:00" = false
    ∧ strEndsWith
      (EpicHandoffTemplate.format_note (MedicalNoteTemplate.new 0)
        "2024-06-01 10:00")
      (rule80 '=' ++ "\n") = true
    ∧ strContains
      (EpicHandoffTemplate.format_note (MedicalNoteTemplate.new 0)
        "2024-06-01 10:00")
      "Handoff Date/Time: 2024-06-01 10:00\n" = true := by
  decide

/-- C3 amended: every variant is wrapped by fixed banners; the consult
and operative notes end in a dashed signature block carrying the
current-time Date line, while the handoff note carries its current-time
line in the header and closes with a bare banner and no signature. -/
theorem note_banners (t : MedicalNoteTemplate) (now : String) :
    (∃ body sig, ConsultNoteTemplate.format_note t now
        = rule80 '=' ++ "\n" ++ "CONSULTATION NOTE\n" ++ rule80 '=' ++ "\n\n"
          ++ body ++ "\n" ++ rule80 '-' ++ "\n" ++ sig
          ++ "Date: " ++ now ++ "\n")
    ∧ (∃ body sig, OperativeReportTemplate.format_note t now
        = rule80 '=' ++ "\n" ++ "OPERATIVE REPORT\n" ++ rule80 '=' ++ "\n\n"
          ++ body ++ "\n" ++ rule80 '-' ++ "\n" ++ sig
          ++ "Date: " ++ now ++ "\n")
    ∧ (∃ pre body, EpicHandoffTemplate.format_note t now
        = rule80 '=' ++ "\n" ++ "HANDOFF NOTE\n" ++ rule80 '=' ++ "\n\n"
          ++ pre ++ "Handoff Date/Time: " ++ now ++ "\n" ++ body
          ++ rule80 '=' ++ "\n") := by
  refine ⟨⟨"PATIENT INFORMATION:\n"
      ++ provLine t "patient_name" "Name"
      ++ provLine t "patient_mrn" "MRN"
      ++ optLine t "patient_dob" "DOB"
      ++ optLine t "age" "Age"
      ++ optLine t "sex" "Sex"
      ++ provLine t "date_of_consult" "Date of Consult"
      ++ provLine t "consulting_service" "Consulting Service"
      ++ optLine t "referring_provider" "Referring Provider"
      ++ "\n"
      ++ reqSection t "reason_for_consult" "REASON FOR CONSULT"
      ++ reqSection t "history_of_present_illness" "HISTORY OF PRESENT ILLNESS"
      ++ optSection t "past_medical_history" "PAST MEDICAL HISTORY"
      ++ optSection t "past_surgical_history" "PAST SURGICAL HISTORY"
      ++ optDualSection t "medications" "MEDICATIONS"
      ++ optSection t "allergies" "ALLERGIES"
      ++ optSection t "social_history" "SOCIAL HISTORY"
      ++ optSection t "family_history" "FAMILY HISTORY"
      ++ optSection t "review_of_systems" "REVIEW OF SYSTEMS"
      ++ optSection t "physical_exam" "PHYSICAL EXAMINATION"
      ++ optSection t "labs" "LABORATORY DATA"
      ++ optSection t "imaging" "IMAGING"
      ++ optSection t "other_studies" "OTHER STUDIES"
      ++ reqSection t "assessment" "ASSESSMENT"
      ++ optDualSection t "differential_diagnosis" "DIFFERENTIAL DIAGNOSIS"
      ++ reqDualSection t "recommendations" "RECOMMENDATIONS"
      ++ optDualSection t "plan" "PLAN"
      ++ optSection t "follow_up" "FOLLOW-UP",
    optLine t "consulting_physician" "Consulting Physician"
      ++ optLine t "attending_physician" "Attending Physician", ?_⟩,
    ⟨"PATIENT INFORMATION:\n"
      ++ provLine t "patient_name" "Name"
      ++ provLine t "patient_mrn" "MRN"
      ++ optLine t "patient_dob" "DOB"
      ++ optLine t "age" "Age"
      ++ optLine t "sex" "Sex"
      ++ provLine t "date_of_surgery" "Date of Surgery"
      ++ optLine t "start_time" "Start Time"
      ++ optLine t "end_time" "End Time"
      ++ optLine t "total_time" "Total Time"
      ++ "\n"
      ++ "SURGICAL TEAM:\n"
      ++ provLine t "surgeon" "Surgeon"
      ++ optLine t "assistant_surgeon" "Assistant Surgeon"
      ++ optLine t "attending_surgeon" "Attending Surgeon"
      ++ optLine t "anesthesiologist" "Anesthesiologist"
      ++ provLine t "anesthesia_type" "Anesthesia Type"
      ++ optLine t "nurses" "Nursing Staff"
      ++ "\n"
      ++ reqSection t "preoperative_diagnosis" "PREOPERATIVE DIAGNOSIS"
      ++ reqSection t "postoperative_diagnosis" "POSTOPERATIVE DIAGNOSIS"
      ++ reqDualSection t "procedure_performed" "PROCEDURE(S) PERFORMED"
      ++ optSection t "indication" "INDICATION"
      ++ reqSection t "operative_findings" "OPERATIVE FINDINGS"
      ++ reqSection t "description_of_procedure" "DESCRIPTION OF PROCEDURE"
      ++ "INTRAOPERATIVE DETAILS:\n"
      ++ provLine t "estimated_blood_loss" "Estimated Blood Loss"
      ++ optLine t "ivf_given" "IV Fluids Given"
      ++ optLine t "urine_output" "Urine Output"
      ++ "\n"
      ++ reqSection t "specimens" "SPECIMENS"
      ++ optSection t "pathology" "PATHOLOGY"
      ++ optSection t "drains" "DRAINS"
      ++ optSection t "implants" "IMPLANTS"
      ++ optSection t "counts_correct" "COUNTS"
      ++ reqSection t "complications" "COMPLICATIONS"
      ++ reqSection t "disposition" "DISPOSITION"
      ++ optSection t "condition" "CONDITION"
      ++ optSection t "follow_up_plan" "FOLLOW-UP PLAN",
    provLine t "surgeon" "Surgeon"
      ++ optLine t "attending_surgeon" "Attending", ?_⟩,
    ⟨provLine t "patient_name" "Patient"
      ++ provLine t "patient_mrn" "MRN"
      ++ provLine t "patient_location" "Location"
      ++ optLine t "age" "Age"
      ++ optLine t "sex" "Sex"
      ++ optLine t "admission_date" "Admission Date"
      ++ optLine t "hospital_day" "Hospital Day"
      ++ optLine t "code_status" "Code Status",
    optLine t "handoff_from" "From"
      ++ optLine t "handoff_to" "To"
      ++ "\n"
      ++ reqSection t "primary_diagnosis" "PRIMARY DIAGNOSIS"
      ++ optSection t "brief_history" "BRIEF HISTORY"
      ++ optSection t "past_medical_history" "PAST MEDICAL HISTORY"
      ++ optSection t "allergies" "ALLERGIES"
      ++ reqDualSection t "active_issues" "ACTIVE ISSUES"
      ++ optSection t "vital_signs" "VITAL SIGNS"
      ++ optSection t "key_labs" "KEY LABS"
      ++ optSection t "key_imaging" "KEY IMAGING"
      ++ optDualSection t "current_medications" "CURRENT MEDICATIONS"
      ++ optSection t "iv_fluids" "IV FLUIDS"
      ++ optSection t "diet" "DIET"
      ++ optSection t "activity" "ACTIVITY"
      ++ optDualSection t "lines_tubes_drains" "LINES/TUBES/DRAINS"
      ++ optDualSection t "pending_studies" "PENDING STUDIES"
      ++ optDualSection t "pending_consults" "PENDING CONSULTS"
      ++ optDualSection t "to_do_list" "TO-DO LIST"
      ++ optDualSection t "if_then_scenarios" "IF-THEN SCENARIOS"
      ++ optSection t "anticipated_discharge_date" "ANTICIPATED DISCHARGE DATE"
      ++ optSection t "discharge_planning" "DISCHARGE PLANNING"
      ++ optSection t "family_communication" "FAMILY COMMUNICATION", ?_⟩⟩
  · simp only [ConsultNoteTemplate.format_note, String.append_assoc]
  · simp only [OperativeReportTemplate.format_note, String.append_assoc]
  · simp only [EpicHandoffTemplate.format_note, String.append_assoc]
